import Mathlib

/-!
Verification of the streamlit table-frame engine (frontend dataframe core).

The definitions below are a shallow embedding of the TypeScript sources:
* `src/unnamed/part_000` (the arrow-proto module: `parseTable`, `concatTables`,
  `compareValues` and their helpers);
* `src/frontend/src/lib/Quiver.ts` (the `Quiver` table model: `dimensions`,
  `getCell`).

Modelling conventions:
* JS numbers that hold row/column coordinates are embedded as `Int` (they can
  be negative); counts and lengths are `Nat`.
* Raw cell values (`any` in the source) are embedded as the closed union
  `Value` (`vInt`, `vStr`, `undef`); `undef` stands for JS `undefined`.
* Functions that can throw return `Except QErr _`; re-throws that copy the
  message (`throw new Error(e.message)`) are modelled as plain propagation.
* Reading a property of `undefined` (a TypeError in JS, e.g.
  `df.index.data[0].length` when `index.data` is empty) is modelled as the
  distinguished error `QErr.undefinedAccess`.
* Out-of-range array reads that merely produce `undefined` (and are then used
  in a position where `undefined` is harmless) are modelled with `List.getD`.
-/

namespace Streamlit

/-- A raw cell value (`any` in the source). `undef` models JS `undefined`. -/
inductive Value where
  | vInt (n : Int)
  | vStr (s : String)
  | undef
deriving DecidableEq, Repr

/-- Index-type metadata. In the source `meta` is dynamically typed (`any`);
we model the fields the engine actually reads: `start`/`stop`/`step` for a
synthetic range index and `num_categories` for a categorical index. -/
structure Meta where
  start : Int := 0
  stop : Int := 0
  step : Int := 0
  num_categories : Int := 0
deriving DecidableEq, Repr

/-- `IndexType` from Quiver.ts: a logical type tag plus metadata. -/
structure IndexType where
  name : String
  meta : Meta
deriving DecidableEq, Repr

/-- `Index` from Quiver.ts: one data sequence and one `IndexType` per level. -/
structure Index where
  data : List (List Value)
  type : List IndexType
deriving DecidableEq, Repr

/-- `Columns` from Quiver.ts: column labels, one row per column level. -/
abbrev Columns := List (List String)

/-- `Data` from Quiver.ts: row-major body matrix plus per-column type tags. -/
structure Data where
  data : List (List Value)
  type : List String
deriving DecidableEq, Repr

/-- The error kinds the engine can raise (the source distinguishes them only
by message text; `undefinedAccess` models a JS TypeError from dereferencing
`undefined`, which is none of the documented error kinds). -/
inductive QErr where
  | schemaMissing
  | dimensionMismatch
  | rowOutOfRange
  | colOutOfRange
  | styledConcat
  | indexTypeMismatch
  | dataTypeMismatch
  | undefinedAccess
deriving DecidableEq, Repr

/-- The `IndexTypes` enum of part_000 (lines 55-66). -/
def IndexTypes.UnicodeIndex : String := "unicode"

def IndexTypes.RangeIndex : String := "range"

def IndexTypes.CategoricalIndex : String := "categorical"

def IndexTypes.IntervalIndex : String := "interval[int64]"

def IndexTypes.DatetimeIndex : String := "datetime"

def IndexTypes.TimedeltaIndex : String := "time"

def IndexTypes.PeriodIndex : String := "period[Q-DEC]"

def IndexTypes.Int64Index : String := "int64"

def IndexTypes.UInt64Index : String := "uint64"

def IndexTypes.Float64Index : String := "float64"

/-- A styler-free table model. Display-value overlays are always built by
`parseTable` with no styler of their own (part_000 lines 98-100), so the
nested frame inside a `Styler` is a `PlainFrame`. -/
structure PlainFrame where
  index : Index
  columns : Columns
  data : Data
deriving DecidableEq, Repr

/-- `Styler` from part_000 (lines 73-78). -/
structure Styler where
  uuid : String
  caption : Option String
  styles : Option String
  displayValues : Option PlainFrame
deriving DecidableEq, Repr

/-- The `Quiver` table model (Quiver.ts lines 63-79); `parseTable`'s
`DataFrame` has the same four fields and the `Quiver` constructor copies them
unchanged, so one structure stands for both. -/
structure Quiver where
  index : Index
  columns : Columns
  data : Data
  styler : Option Styler
deriving DecidableEq, Repr

/-- `TableDimensions` from Quiver.ts (lines 28-35). -/
structure TableDimensions where
  headerRows : Nat
  headerColumns : Nat
  dataRows : Nat
  dataColumns : Nat
  rows : Nat
  columns : Nat
deriving DecidableEq, Repr

/-- `TableCell` from Quiver.ts (lines 39-44); `type` is one of
"blank" | "index" | "columns" | "data". -/
structure TableCell where
  type : String
  id : Option String
  classNames : String
  content : String
deriving DecidableEq, Repr

/-- Modelled from the spec: the external value-formatting routine
(`betaToFormattedString` from src/lib/format, a collaborator outside these
sources) that turns a raw typed value into a display string. No claim
depends on its output; any total function is a faithful stand-in. -/
def betaToFormattedString (value : Value) (_contentType : String) : String :=
  match value with
  | .vInt n => toString n
  | .vStr s => s
  | .undef => ""

/-- The `dimensions` getter of Quiver.ts (lines 93-129), parameterized by the
three fields it reads. The source destructures pairs
(`const [headerColumns, dataRowsCheck] = this.index.data.length ? ... : [0,0]`);
the `let`s below are those pairs componentwise. -/
def dimensionsOf (index : Index) (columns : Columns) (data : Data) :
    Except QErr TableDimensions :=
  let headerColumns := index.data.length
  let dataRowsCheck := if index.data.length ≠ 0 then (index.data.getD 0 []).length else 0
  let headerRows := if columns.length ≠ 0 then columns.length else 1
  let dataColumnsCheck := if columns.length ≠ 0 then (columns.getD 0 []).length else 0
  let dataRows := data.data.length
  -- If there is no data, dataColumns defaults to the header-derived count.
  let dataColumns := if data.data.length ≠ 0 then (data.data.getD 0 []).length else dataColumnsCheck
  if (dataRows ≠ 0 ∧ dataRows ≠ dataRowsCheck) ∨
      (dataColumns ≠ 0 ∧ dataColumns ≠ dataColumnsCheck) then
    .error QErr.dimensionMismatch
  else
    .ok { headerRows := headerRows, headerColumns := headerColumns,
          dataRows := dataRows, dataColumns := dataColumns,
          rows := headerRows + dataRows, columns := headerColumns + dataColumns }

/-- `Quiver.dimensions` (the getter only reads `index`, `columns`, `data`). -/
def Quiver.dimensions (q : Quiver) : Except QErr TableDimensions :=
  dimensionsOf q.index q.columns q.data

/-- `dimensions` of a styler-free frame (same computation). -/
def PlainFrame.dimensions (p : PlainFrame) : Except QErr TableDimensions :=
  dimensionsOf p.index p.columns p.data

/-- The body of `Quiver.getCell` (Quiver.ts lines 131-219) after the
`this.dimensions` destructuring, parameterized by the fields it reads:
`uuid` is `this.styler?.uuid`, and `displayContent`, when present, is
`(r, c) => this.styler.displayValues.getCell(r, c).content` (the overlay
lookup used for body cells). -/
def getCellWithDims (index : Index) (columns : Columns) (data : Data)
    (uuid : Option String) (displayContent : Option (Int → Int → Except QErr String))
    (dims : TableDimensions) (rowIndex columnIndex : Int) : Except QErr TableCell :=
  if rowIndex < 0 ∨ (dims.rows : Int) ≤ rowIndex then
      .error QErr.rowOutOfRange
    else if columnIndex < 0 ∨ (dims.columns : Int) ≤ columnIndex then
      .error QErr.colOutOfRange
    else if rowIndex < (dims.headerRows : Int) ∧ columnIndex < (dims.headerColumns : Int) then
      -- blank cell
      .ok { type := "blank", id := none,
            classNames := if 0 < columnIndex then s!"blank level{rowIndex}" else "blank",
            content := "" }
    else if (dims.headerRows : Int) ≤ rowIndex ∧ columnIndex < (dims.headerColumns : Int) then
      -- index (row-header) cell. `this.index.type[columnIndex].name` has no
      -- optional chaining: when index.type is shorter than index.data (a
      -- state dimensions never checks), reading `.name` of `undefined`
      -- throws a TypeError.
      let dataRowIndex := rowIndex - (dims.headerRows : Int)
      match index.type.get? columnIndex.toNat with
      | none => .error QErr.undefinedAccess
      | some indexType =>
        .ok { type := "index",
              id := uuid.map (fun u => s!"T_{u}level{columnIndex}_row{dataRowIndex}"),
              classNames := s!"row_heading level{columnIndex} row{dataRowIndex}",
              content := betaToFormattedString
                ((index.data.getD columnIndex.toNat []).getD dataRowIndex.toNat .undef)
                indexType.name }
    else if rowIndex < (dims.headerRows : Int) ∧ (dims.headerColumns : Int) ≤ columnIndex then
      -- columns (column-header) cell
      let dataColumnIndex := columnIndex - (dims.headerColumns : Int)
      .ok { type := "columns", id := none,
            classNames := s!"col_heading level{rowIndex} col{dataColumnIndex}",
            content := (columns.getD rowIndex.toNat []).getD dataColumnIndex.toNat "" }
    else
      -- data (body) cell
      let dataRowIndex := rowIndex - (dims.headerRows : Int)
      let dataColumnIndex := columnIndex - (dims.headerColumns : Int)
      let contentType := data.type.getD dataColumnIndex.toNat ""
      -- content: the display-value overlay when present, else the formatted
      -- raw value (the ternary on this.styler?.displayValues)
      match (match displayContent with
             | some f => f rowIndex columnIndex
             | none => .ok (betaToFormattedString
                 ((data.data.getD dataRowIndex.toNat []).getD dataColumnIndex.toNat .undef)
                 contentType) : Except QErr String) with
      | .error e => .error e
      | .ok content =>
        .ok { type := "data",
              id := uuid.map (fun u => s!"T_{u}row{dataRowIndex}_col{dataColumnIndex}"),
              classNames := s!"data row{dataRowIndex} col{dataColumnIndex}",
              content := content }

/-- `Quiver.getCell` (Quiver.ts lines 131-219): compute the dimensions
(propagating their error), then classify. -/
def getCellAux (index : Index) (columns : Columns) (data : Data)
    (uuid : Option String) (displayContent : Option (Int → Int → Except QErr String))
    (rowIndex columnIndex : Int) : Except QErr TableCell :=
  match dimensionsOf index columns data with
  | .error e => .error e
  | .ok dims => getCellWithDims index columns data uuid displayContent dims rowIndex columnIndex

/-- `getCell` of a styler-free frame (display-value overlays never carry a
styler of their own, so there is no deeper nesting). -/
def PlainFrame.getCell (p : PlainFrame) (rowIndex columnIndex : Int) :
    Except QErr TableCell :=
  getCellAux p.index p.columns p.data none none rowIndex columnIndex

/-- `Quiver.getCell` (Quiver.ts lines 131-219). -/
def Quiver.getCell (q : Quiver) (rowIndex columnIndex : Int) :
    Except QErr TableCell :=
  getCellAux q.index q.columns q.data (q.styler.map Styler.uuid)
    ((q.styler.bind Styler.displayValues).map
      (fun dv => fun r c => Except.map TableCell.content (dv.getCell r c)))
    rowIndex columnIndex

/-! ## Schema decoding and parsing (part_000 lines 80-204) -/

/-- One entry of `schema.index_columns`: either a literal column reference
(a field name string) or a serialized `RangeIndex` descriptor. -/
inductive IndexDescriptor where
  | fieldRef (name : String)
  | rangeIdx (name : Option String) (start stop step : Int)
deriving DecidableEq, Repr

/-- `SchemaColumn` (part_000 lines 47-53). `metadata` is `Record | null` in
the source; we model the fields the engine reads (see `Meta`). -/
structure SchemaColumn where
  field_name : String
  metadata : Meta
  name : Option String
  numpy_type : String
  pandas_type : String
deriving DecidableEq, Repr

/-- The parsed pandas `Schema` (part_000 lines 33-37). Only the length of
`column_indexes` is ever consulted, so it is modelled as that count. -/
structure Schema where
  index_columns : List IndexDescriptor
  columns : List SchemaColumn
  column_indexes : Nat
deriving DecidableEq, Repr

/-- An Apache-Arrow table as the engine sees it: the "pandas" metadata entry
(kept JSON-decoded — JSON parsing is the external `JSON.parse`), the named
column buffers in schema order, and the row count. -/
structure ArrowTable where
  pandasMetadata : Option Schema
  cols : List (String × List Value)
  length : Nat
deriving DecidableEq, Repr

/-- `table.getColumn(name)`: look up a column buffer by field name
(`null`/`undefined` when absent). -/
def ArrowTable.getColumn (t : ArrowTable) (name : String) : Option (List Value) :=
  (t.cols.find? (fun c => c.1 == name)).map (fun c => c.2)

/-- `table.getColumnAt(i)`: positional column lookup. -/
def ArrowTable.getColumnAt (t : ArrowTable) (i : Nat) : Option (List Value) :=
  (t.cols.get? i).map (fun c => c.2)

/-- `getSchema` (part_000 lines 118-124): the pandas schema entry must be
present in the table metadata. -/
def getSchema (table : ArrowTable) : Except QErr Schema :=
  match table.pandasMetadata with
  | none => .error QErr.schemaMissing
  | some s => .ok s

/-- lodash `range(start, stop, step)`: the arithmetic progression from
`start` advancing by `step` (0 treated as 1 for the length computation),
stopping before `stop`. -/
def lodashRange (start stop step : Int) : List Value :=
  let s := if step == 0 then 1 else step
  let diff := stop - start
  let len : Nat := if s > 0 then ((diff + s - 1) / s).toNat else ((-diff + (-s) - 1) / (-s)).toNat
  (List.range len).map (fun i => Value.vInt (start + (i : Int) * s))

/-- `getColumnData` (part_000 lines 202-204): read every row of a column. -/
def getColumnData (column : List Value) : List Value :=
  (List.range column.length).map (fun rowIndex => column.getD rowIndex .undef)

/-- `getIndex` (part_000 lines 126-136): materialize each index level. -/
def getIndex (table : ArrowTable) (schema : Schema) : List (List Value) :=
  schema.index_columns.map (fun field =>
    match field with
    | .rangeIdx _ start stop step => lodashRange start stop step
    | .fieldRef name => getColumnData ((table.getColumn name).getD []))

/-- `getIndexType` (part_000 lines 138-162). For a missing referenced column
the source reads properties off `undefined`; the resulting `undefined`
type name is modelled as `""` and the metadata as the empty record. -/
def getIndexType (schema : Schema) : List IndexType :=
  schema.index_columns.map (fun indexName =>
    match indexName with
    | .rangeIdx _ start stop step =>
      { name := IndexTypes.RangeIndex,
        meta := { start := start, stop := stop, step := step } }
    | .fieldRef nm =>
      let indexColumn := schema.columns.find? (fun column => column.field_name == nm)
      { name :=
          match indexColumn with
          | some c => if c.pandas_type == "object" then c.numpy_type else c.pandas_type
          | none => "",
        meta := (indexColumn.map SchemaColumn.metadata).getD {} })

/-- Models the multi-index tuple-literal decoding in `getColumns`
(part_000 lines 172-177): the source rewrites `('a','b')` to `["a","b"]`
with regex substitution and `JSON.parse`; here the brackets are stripped and
the comma-separated, quoted components extracted directly. -/
def parseTupleLiteral (s : String) : List String :=
  (((s.drop 1).dropRight 1).splitOn ",").map (fun part =>
    let p := part.trim
    (p.drop 1).dropRight 1)

/-- lodash `unzip`: transpose a list of lists (missing entries, `undefined`
in JS, are dropped; the lists produced by `getColumns` have equal length). -/
def lodashUnzip (xss : List (List String)) : List (List String) :=
  let n := xss.foldl (fun m xs => max m xs.length) 0
  (List.range n).map (fun i => xss.filterMap (fun xs => xs.get? i))

/-- `getColumns` (part_000 lines 164-181). -/
def getColumns (schema : Schema) : List (List String) :=
  let isMultiIndex := schema.column_indexes > 1
  lodashUnzip
    ((((schema.columns.map SchemaColumn.field_name).filter
        (fun fieldName => !(schema.index_columns.any (fun d =>
          match d with
          | .fieldRef n => n == fieldName
          | .rangeIdx _ _ _ _ => false)))).map
      (fun fieldName => if isMultiIndex then parseTupleLiteral fieldName else [fieldName])))

/-- `getData` (part_000 lines 183-191): the body matrix, read positionally. -/
def getData (table : ArrowTable) (columns : List (List String)) : List (List Value) :=
  let rows := table.length
  let cols := if columns.length > 0 then (columns.getD 0 []).length else 0
  (List.range rows).map (fun rowIndex =>
    (List.range cols).map (fun columnIndex =>
      ((table.getColumnAt columnIndex).bind (fun col => col.get? rowIndex)).getD .undef))

/-- `getDataColumnType` (part_000 lines 193-200): per-data-column pandas
type tags, empty when the table has zero rows. -/
def getDataColumnType (table : ArrowTable) (schema : Schema) : List String :=
  if table.length > 0 then
    (schema.columns.filter (fun column => !(schema.index_columns.any (fun d =>
      match d with
      | .fieldRef n => n == column.field_name
      | .rangeIdx _ _ _ _ => false)))).map SchemaColumn.pandas_type
  else []

/-- The styler part of the `IArrow` payload: `displayValues` is a nested
payload of the same shape, modelled as its decoded table. -/
structure IStyler where
  uuid : String
  caption : Option String
  styles : Option String
  displayValues : Option ArrowTable
deriving Repr

/-- The `IArrow` payload handed to `parseTable`: arrow bytes (modelled as
the decoded table) plus the optional styler. -/
structure IArrow where
  data : Option ArrowTable
  styler : Option IStyler
deriving Repr

/-- `Table.from(element?.data)`: an absent payload decodes to an empty arrow
table with no metadata. -/
def tableFrom (o : Option ArrowTable) : ArrowTable :=
  o.getD { pandasMetadata := none, cols := [], length := 0 }

/-- The schema/columns/index/data part of `parseTable`
(part_000 lines 85-94). -/
def parseTableCore (table : ArrowTable) : Except QErr PlainFrame :=
  match getSchema table with
  | .error e => .error e
  | .ok schema =>
    let columns := getColumns schema
    let index : Index := { data := getIndex table schema, type := getIndexType schema }
    let data : Data := { data := getData table columns, type := getDataColumnType table schema }
    .ok { index := index, columns := columns, data := data }

/-- `parseTable` (part_000 lines 80-116). The recursive call for
`styler.displayValues` always receives a payload without a styler, so it is
the core parse; the surrounding `try/catch` rethrows, modelled as
propagation. -/
def parseTable (element : Option IArrow) : Except QErr Quiver :=
  let table := tableFrom (element.bind IArrow.data)
  let tableStyler := element.bind IArrow.styler
  match parseTableCore table with
  | .error e => .error e
  | .ok core =>
    match tableStyler with
    | none =>
      .ok { index := core.index, columns := core.columns, data := core.data, styler := none }
    | some st =>
      match parseTableCore (tableFrom st.displayValues) with
      | .error e => .error e
      | .ok inner =>
        .ok { index := core.index, columns := core.columns, data := core.data,
              styler := some { uuid := st.uuid, caption := st.caption, styles := st.styles,
                               displayValues := some inner } }

/-! ## Concatenation (part_000 lines 206-358, 388-394) -/

/-- `isEmptyDf` (part_000 lines 388-394):
`df.data.data.length === 0 && df.index.data[0].length === 0 &&
df.columns.length === 0`. The `&&` short-circuits, so `index.data[0]` is
only read when the body is empty; when `index.data` is empty that read
dereferences `undefined`. -/
def isEmptyDf (df : Quiver) : Except QErr Bool :=
  if df.data.data.length == 0 then
    match df.index.data.head? with
    | none => .error QErr.undefinedAccess
    | some firstLevel => .ok (firstLevel.length == 0 && df.columns.length == 0)
  else .ok false

/-- `sameIndexTypes` (part_000 lines 331-344): equal level counts and equal
type names levelwise. -/
def sameIndexTypes (firstType secondType : List IndexType) : Bool :=
  if firstType.length != secondType.length then false
  else (List.range firstType.length).all (fun index =>
    (firstType.getD index { name := "", meta := {} }).name ==
      (secondType.getD index { name := "", meta := {} }).name)

/-- `sameDataColumnTypes` (part_000 lines 346-354):
`firstType.every((v, i) => v === secondType[i])`. There is no length check;
a position past the end of `secondType` compares a string against
`undefined` and fails. -/
def sameDataColumnTypes (firstType secondType : List String) : Bool :=
  (List.range firstType.length).all (fun index =>
    match secondType.get? index with
    | some t => firstType.getD index "" == t
    | none => false)

/-- `IndexData` (part_000 lines 68-71). -/
structure IndexData where
  data : List Value
  type : IndexType
deriving DecidableEq, Repr

/-- One step of the `secondIndex.reduce` in `concatRangeIndex`
(part_000 lines 285-293): push the running stop, advance it by the step,
and record the new stop in the level metadata. -/
def rangeStep (step : Int) (st : IndexData × Int) (_v : Value) : IndexData × Int :=
  ({ data := st.1.data ++ [Value.vInt st.2],
     type := { st.1.type with meta := { st.1.type.meta with stop := st.2 + step } } },
   st.2 + step)

/-- `concatRangeIndex` (part_000 lines 278-294). -/
def concatRangeIndex (firstIndex secondIndex : List Value) (indexType : IndexType) :
    IndexData :=
  (secondIndex.foldl (rangeStep indexType.meta.step)
    ({ data := firstIndex, type := indexType }, indexType.meta.stop)).1

/-- `concatAnyIndex` (part_000 lines 296-309): plain concatenation, with the
categorical special case bumping `num_categories`. -/
def concatAnyIndex (firstIndex secondIndex : List Value) (indexType : IndexType) :
    IndexData :=
  let concatenatedIndex := firstIndex ++ secondIndex
  let newType :=
    if indexType.name == IndexTypes.CategoricalIndex then
      { indexType with meta :=
          { indexType.meta with
            num_categories := indexType.meta.num_categories + secondIndex.length } }
    else indexType
  { data := concatenatedIndex, type := newType }

/-- `concatIndex` (part_000 lines 264-276). -/
def concatIndex (firstIndex secondIndex : List Value) (indexType : IndexType) :
    IndexData :=
  if indexType.name == IndexTypes.RangeIndex then
    concatRangeIndex firstIndex secondIndex indexType
  else
    concatAnyIndex firstIndex secondIndex indexType

/-- `concatIndices` (part_000 lines 233-262). Reading `firstIndices.data[0]`
when there are no levels dereferences `undefined`; levelwise, a missing
second-side level or type (`undefined` in JS) is modelled by `getD`. -/
def concatIndices (firstIndices secondIndices : Index) : Except QErr Index :=
  match firstIndices.data.head? with
  | none => .error QErr.undefinedAccess
  | some firstLevel =>
    if firstLevel.length == 0 then .ok secondIndices
    else if !sameIndexTypes firstIndices.type secondIndices.type then
      .error QErr.indexTypeMismatch
    else
      .ok ((firstIndices.data.enum).foldl
        (fun (newIndex : Index) (p : Nat × List Value) =>
          let concatenatedIndex := concatIndex p.2 (secondIndices.data.getD p.1 [])
            (firstIndices.type.getD p.1 { name := "", meta := {} })
          { data := newIndex.data ++ [concatenatedIndex.data],
            type := newIndex.type ++ [concatenatedIndex.type] })
        { data := [], type := [] })

/-- `concatData` (part_000 lines 311-329): check column types, then append
the addition's rows, each cut with `slice(0, numberOfColumns)` (which
truncates but never pads). -/
def concatData (firstData secondData : Data) : Except QErr Data :=
  if !sameDataColumnTypes firstData.type secondData.type then
    .error QErr.dataTypeMismatch
  else
    let numberOfColumns := firstData.type.length
    .ok { data := firstData.data ++
            secondData.data.map (fun row => row.take numberOfColumns),
          type := firstData.type }

/-- `concatTables` (part_000 lines 206-231). -/
def concatTables (df1 df2 : Quiver) : Except QErr Quiver :=
  if df1.styler.isSome || df2.styler.isSome then
    .error QErr.styledConcat
  else
    match isEmptyDf df1 with
    | .error e => .error e
    | .ok true => .ok df2
    | .ok false =>
      match isEmptyDf df2 with
      | .error e => .error e
      | .ok true => .ok df1
      | .ok false =>
        match concatIndices df1.index df2.index with
        | .error e => .error e
        | .ok index =>
          match concatData df1.data df2.data with
          | .error e => .error e
          | .ok data =>
            .ok { index := index, columns := df1.columns, data := data, styler := none }

/-! ## Value comparison (part_000 lines 360-386) -/

/-- JS `Number()` coercion of a cell value: `undefined` and non-numeric
strings are NaN, modelled as `none`. -/
def toNumber : Value → Option Int
  | .vInt n => some n
  | .vStr s => s.toInt?
  | .undef => none

/-- The JS relational `<` on cell values: two strings compare by code
points, otherwise operands are coerced to numbers and NaN makes the
comparison false. -/
def jsLt : Value → Value → Bool
  | .vStr a, .vStr b => decide (a < b)
  | a, b =>
    match toNumber a, toNumber b with
    | some x, some y => decide (x < y)
    | _, _ => false

/-- JS `String()` coercion of a cell value. -/
def valueToString : Value → String
  | .vInt n => toString n
  | .vStr s => s
  | .undef => "undefined"

/-- ASCII lowercasing of one character (part of the modelled collator). -/
def lowerChar (c : Char) : Char :=
  if 'A' ≤ c ∧ c ≤ 'Z' then Char.ofNat (c.toNat + 32) else c

/-- ASCII lowercasing of a string (part of the modelled collator). -/
def lowerString (s : String) : String :=
  String.mk (s.data.map lowerChar)

/-- Modelled from the spec: the external locale collator
(`Intl.Collator("en", {numeric: false, sensitivity: "base"})`, a platform
API). Base sensitivity ignores case and accent differences; it is
approximated as case-insensitive code-point comparison. -/
def collatorCompare (a b : String) : Int :=
  if lowerString a < lowerString b then -1
  else if lowerString b < lowerString a then 1
  else 0

/-- `compareStrings` (part_000 lines 368-376). -/
def compareStrings (a b : Value) : Int :=
  collatorCompare (valueToString a) (valueToString b)

/-- `compareAny` (part_000 lines 378-386). -/
def compareAny (a b : Value) : Int :=
  if jsLt a b then -1
  else if jsLt b a then 1
  else 0

/-- `compareValues` (part_000 lines 360-366). -/
def compareValues (a b : Value) (type : String) : Int :=
  if type == "unicode" then compareStrings a b
  else compareAny a b

/-! ## Shared lemmas -/

/-- A frame with a nonempty body is not empty (the `&&` short-circuits). -/
theorem isEmptyDf_of_data_ne (df : Quiver) (h : df.data.data ≠ []) :
    isEmptyDf df = .ok false := by
  unfold isEmptyDf
  have hlen : (df.data.data.length == 0) = false := by
    simp only [beq_eq_false_iff_ne, ne_eq, List.length_eq_zero]
    exact h
  rw [hlen]
  rfl

/-- A frame whose first index level is nonempty is not empty. -/
theorem isEmptyDf_of_first_level_ne (df : Quiver) (d : List Value)
    (hd : df.index.data.head? = some d) (hne : d ≠ []) :
    isEmptyDf df = .ok false := by
  unfold isEmptyDf
  rw [hd]
  have hlen : (d.length == 0) = false := by
    simp only [beq_eq_false_iff_ne, ne_eq, List.length_eq_zero]
    exact hne
  split
  · show Except.ok (d.length == 0 && df.columns.length == 0) = Except.ok false
    rw [hlen]
    rfl
  · rfl

/-- When both frames are non-styled and non-empty and the index merge
succeeds, `concatTables` is exactly the data-merge stage. -/
theorem concatTables_data_stage (df1 df2 : Quiver)
    (h1 : df1.styler = none) (h2 : df2.styler = none)
    (he1 : isEmptyDf df1 = .ok false) (he2 : isEmptyDf df2 = .ok false)
    (ix : Index) (hix : concatIndices df1.index df2.index = .ok ix) :
    concatTables df1 df2 =
      match concatData df1.data df2.data with
      | .error e => .error e
      | .ok data =>
        .ok { index := ix, columns := df1.columns, data := data, styler := none } := by
  unfold concatTables
  rw [h1, h2, he1, he2, hix]
  rfl

/-- `sameDataColumnTypes` holds exactly when every position of the first
type list is matched in the second (the second may be longer). -/
theorem sameDataColumnTypes_iff (a b : List String) :
    sameDataColumnTypes a b = true ↔
      ∀ i, i < a.length → b.get? i = some (a.getD i "") := by
  unfold sameDataColumnTypes
  rw [List.all_eq_true]
  constructor
  · intro h i hi
    have h2 := h i (List.mem_range.mpr hi)
    cases hb : b.get? i with
    | none =>
      simp only [hb] at h2
      exact Bool.noConfusion h2
    | some t =>
      simp only [hb, beq_iff_eq] at h2
      rw [h2]
  · intro h i hi
    have hi2 := List.mem_range.mp hi
    simp only [h i hi2, beq_iff_eq]

/-! ## Claim C4: concatenation with a structurally empty frame -/

/-- C4 (amended): for a structurally empty, non-styled `F` and non-styled
`G`, `concatTables F G` returns `G` unchanged; `concatTables G F` returns
`G` unchanged provided `G` is not itself empty (when both are empty, the
base-empty rule fires first and `F` is returned instead). -/
theorem claim4_empty_concat (F G : Quiver)
    (hFs : F.styler = none) (hGs : G.styler = none)
    (hFd : F.data.data = []) (hFi : F.index.data.head? = some [])
    (hFc : F.columns = []) :
    concatTables F G = .ok G ∧
      (isEmptyDf G = .ok false → concatTables G F = .ok G) := by
  have hF : isEmptyDf F = .ok true := by
    unfold isEmptyDf
    rw [hFi, if_pos (by simp [hFd]), hFc]
    rfl
  constructor
  · unfold concatTables
    rw [hFs, hGs, hF]
    rfl
  · intro hG
    unfold concatTables
    rw [hGs, hFs, hG, hF]
    rfl

/-- A structurally empty frame with a `range` index level. -/
def c4empty1 : Quiver :=
  ⟨⟨[[]], [⟨IndexTypes.RangeIndex, {}⟩]⟩, [], ⟨[], []⟩, none⟩

/-- A structurally empty frame with a `unicode` index level (distinct from
`c4empty1`). -/
def c4empty2 : Quiver :=
  ⟨⟨[[]], [⟨IndexTypes.UnicodeIndex, {}⟩]⟩, [], ⟨[], []⟩, none⟩

/-- C4 counterexample: when `G` (`c4empty2`) is itself structurally empty,
`concatTables G F` returns `F` (`c4empty1`), not `G`, so the claimed
symmetric identity fails. -/
theorem claim4_counterexample :
    concatTables c4empty2 c4empty1 = .ok c4empty1 ∧ c4empty1 ≠ c4empty2 := by
  exact ⟨rfl, by decide⟩

/-- A small non-empty frame. -/
def c4full : Quiver :=
  ⟨⟨[[.vInt 0]], [⟨"int64", {}⟩]⟩, [["a"]], ⟨[[.vInt 5]], ["int64"]⟩, none⟩

/-- C4 witness: at concrete frames, concatenating with the empty frame on
either side returns the non-empty frame unchanged. -/
theorem claim4_witness :
    concatTables c4empty1 c4full = .ok c4full ∧
      concatTables c4full c4empty1 = .ok c4full := by
  have h := claim4_empty_concat c4empty1 c4full rfl rfl rfl rfl rfl
  exact ⟨h.1, h.2 rfl⟩

/-! ## Claim C8: missing pandas schema -/

/-- C8: a payload whose table metadata has no "pandas" entry fails to parse
with `SchemaMissing` (and, `Except` being all-or-nothing, produces no
partial frame); when the entry is present, the schema-missing branch of
`getSchema` is not taken. -/
theorem claim8_schema_missing (element : Option IArrow) :
    ((tableFrom (element.bind IArrow.data)).pandasMetadata = none →
      parseTable element = .error QErr.schemaMissing) ∧
    (∀ s, (tableFrom (element.bind IArrow.data)).pandasMetadata = some s →
      getSchema (tableFrom (element.bind IArrow.data)) = .ok s) := by
  constructor
  · intro h
    simp only [parseTable, parseTableCore, getSchema, h]
  · intro s h
    unfold getSchema
    rw [h]

/-- C8 witness: the absent payload decodes to a metadata-less table and
parsing fails with `SchemaMissing`. -/
theorem claim8_witness : parseTable none = .error QErr.schemaMissing :=
  (claim8_schema_missing none).1 rfl

/-! ## Claim C10: concatenation with zero index levels -/

/-- C10 (amended): the emptiness test reads the first index level only
after finding zero body rows. A non-styled base with zero body rows and
zero index levels makes `concatTables` dereference the missing level and
fail with an error that is none of the specified concatenation errors. -/
theorem claim10_zero_index_levels (df1 df2 : Quiver)
    (h1 : df1.styler = none) (h2 : df2.styler = none)
    (hd : df1.data.data = []) (hi : df1.index.data = []) :
    concatTables df1 df2 = .error QErr.undefinedAccess ∧
      QErr.undefinedAccess ≠ QErr.styledConcat ∧
      QErr.undefinedAccess ≠ QErr.indexTypeMismatch ∧
      QErr.undefinedAccess ≠ QErr.dataTypeMismatch := by
  refine ⟨?_, by decide, by decide, by decide⟩
  have hE : isEmptyDf df1 = .error QErr.undefinedAccess := by
    unfold isEmptyDf
    rw [hi, if_pos (by simp [hd])]
    rfl
  unfold concatTables
  rw [h1, h2, hE]
  rfl

/-- A base frame with zero index levels but a nonempty body. -/
def c10base : Quiver := ⟨⟨[], []⟩, [["c"]], ⟨[[.vInt 1]], ["int64"]⟩, none⟩

/-- A structurally empty addition frame. -/
def c10empty : Quiver := ⟨⟨[[]], [⟨"int64", {}⟩]⟩, [], ⟨[], []⟩, none⟩

/-- C10 counterexample: a base with zero index levels is never probed by the
emptiness test (the `&&` short-circuits on its nonempty body), and the
empty-addition short-circuit then returns the base successfully — so the
operation does not require at least one index level on every call. -/
theorem claim10_counterexample :
    concatTables c10base c10empty = .ok c10base ∧ c10base.index.data = [] :=
  ⟨rfl, rfl⟩

/-- A fully empty frame with zero index levels. -/
def c10w : Quiver := ⟨⟨[], []⟩, [], ⟨[], []⟩, none⟩

/-- A small non-styled frame. -/
def c10other : Quiver :=
  ⟨⟨[[.vInt 0]], [⟨"int64", {}⟩]⟩, [["c"]], ⟨[[.vInt 1]], ["int64"]⟩, none⟩

/-- C10 witness: the amended theorem at concrete frames. -/
theorem claim10_witness :
    concatTables c10w c10other = .error QErr.undefinedAccess :=
  (claim10_zero_index_levels c10w c10other rfl rfl rfl rfl).1

/-! ## Claims C2 and C3: the data merge -/

/-- `concatData` in closed form. -/
theorem concatData_eq (d1 d2 : Data) :
    concatData d1 d2 =
      (if sameDataColumnTypes d1.type d2.type then
        .ok { data := d1.data ++ d2.data.map (fun row => row.take d1.type.length),
              type := d1.type }
      else .error QErr.dataTypeMismatch) := by
  unfold concatData
  cases hs : sameDataColumnTypes d1.type d2.type <;> simp [hs]

/-- C2 (amended): given non-styled, non-empty frames whose index merge
succeeds, concatenation fails with `DataTypeMismatch` exactly when some
position below the base's column count is unmatched in the addition's type
list (absent or a different tag). Identity of the two sequences is
sufficient but not necessary: an addition whose type list extends the
base's positionwise does not fail. -/
theorem claim2_data_type_mismatch_iff (df1 df2 : Quiver)
    (h1 : df1.styler = none) (h2 : df2.styler = none)
    (he1 : isEmptyDf df1 = .ok false) (he2 : isEmptyDf df2 = .ok false)
    (ix : Index) (hix : concatIndices df1.index df2.index = .ok ix) :
    concatTables df1 df2 = .error QErr.dataTypeMismatch ↔
      ¬ ∀ i, i < df1.data.type.length →
        df2.data.type.get? i = some (df1.data.type.getD i "") := by
  rw [concatTables_data_stage df1 df2 h1 h2 he1 he2 ix hix, concatData_eq]
  cases hs : sameDataColumnTypes df1.data.type df2.data.type with
  | true =>
    constructor
    · intro hc
      exact Except.noConfusion hc
    · intro hr
      exact absurd ((sameDataColumnTypes_iff _ _).mp hs) hr
  | false =>
    constructor
    · intro _ hall
      have hs2 : sameDataColumnTypes df1.data.type df2.data.type = true :=
        (sameDataColumnTypes_iff _ _).mpr hall
      rw [hs] at hs2
      exact Bool.noConfusion hs2
    · intro _
      rfl

/-- Base frame with one `int64` data column. -/
def c2cBase : Quiver :=
  ⟨⟨[[.vInt 0]], [⟨"int64", {}⟩]⟩, [["a"]], ⟨[[.vInt 1]], ["int64"]⟩, none⟩

/-- Addition frame with two data columns, `int64` and `unicode`. -/
def c2cAdd : Quiver :=
  ⟨⟨[[.vInt 0]], [⟨"int64", {}⟩]⟩, [["a", "b"]],
    ⟨[[.vInt 2, .vStr "x"]], ["int64", "unicode"]⟩, none⟩

/-- The frame `concatTables c2cBase c2cAdd` actually produces. -/
def c2cMerged : Quiver :=
  ⟨⟨[[.vInt 0, .vInt 0]], [⟨"int64", {}⟩]⟩, [["a"]],
    ⟨[[.vInt 1], [.vInt 2]], ["int64"]⟩, none⟩

/-- C2 counterexample: two non-empty, non-styled frames whose data-type
sequences differ in length (base `["int64"]`, addition
`["int64", "unicode"]`) concatenate successfully — no `DataTypeMismatch` is
raised, because `sameDataColumnTypes` iterates only over the base's list. -/
theorem claim2_counterexample :
    c2cBase.data.type.length = 1 ∧ c2cAdd.data.type.length = 2 ∧
      c2cBase.data.type ≠ c2cAdd.data.type ∧
      concatTables c2cBase c2cAdd = .ok c2cMerged := by
  exact ⟨rfl, rfl, by decide, rfl⟩

/-- Base frame with an `int64` data column. -/
def c2wBase : Quiver :=
  ⟨⟨[[.vInt 0]], [⟨"int64", {}⟩]⟩, [["a"]], ⟨[[.vInt 1]], ["int64"]⟩, none⟩

/-- Addition frame with a `unicode` data column. -/
def c2wAdd : Quiver :=
  ⟨⟨[[.vInt 0]], [⟨"int64", {}⟩]⟩, [["a"]], ⟨[[.vStr "s"]], ["unicode"]⟩, none⟩

/-- C2 witness: `["int64"]` against `["unicode"]` fails with
`DataTypeMismatch`, by the amended theorem. -/
theorem claim2_witness :
    concatTables c2wBase c2wAdd = .error QErr.dataTypeMismatch := by
  have h := claim2_data_type_mismatch_iff c2wBase c2wAdd rfl rfl rfl rfl
    ⟨[[.vInt 0, .vInt 0]], [⟨"int64", {}⟩]⟩ rfl
  exact h.mpr (by decide)

/-- C3 (amended): given non-styled, non-empty frames that pass the data-type
check (and whose index merge succeeds), the merged body is the base's rows
followed by the addition's rows each cut to at most the base's column count
(`slice(0, n)` truncates longer rows but never pads shorter ones), and the
merged type list is the base's. -/
theorem claim3_concat_data_truncates (df1 df2 : Quiver)
    (h1 : df1.styler = none) (h2 : df2.styler = none)
    (he1 : isEmptyDf df1 = .ok false) (he2 : isEmptyDf df2 = .ok false)
    (ix : Index) (hix : concatIndices df1.index df2.index = .ok ix)
    (hdt : sameDataColumnTypes df1.data.type df2.data.type = true) :
    concatTables df1 df2 = .ok
      { index := ix, columns := df1.columns,
        data := { data := df1.data.data ++
                    df2.data.data.map (fun row => row.take df1.data.type.length),
                  type := df1.data.type },
        styler := none } := by
  rw [concatTables_data_stage df1 df2 h1 h2 he1 he2 ix hix, concatData_eq, hdt]
  rfl

/-- Base frame with two `int64` columns. -/
def c3b : Quiver :=
  ⟨⟨[[.vInt 0]], [⟨"int64", {}⟩]⟩, [["a", "b"]],
    ⟨[[.vInt 1, .vInt 2]], ["int64", "int64"]⟩, none⟩

/-- Addition frame whose single row is shorter than its two-column type
list. -/
def c3a : Quiver :=
  ⟨⟨[[.vInt 0]], [⟨"int64", {}⟩]⟩, [["a", "b"]],
    ⟨[[.vInt 5]], ["int64", "int64"]⟩, none⟩

/-- The frame `concatTables c3b c3a` actually produces. -/
def c3merged : Quiver :=
  ⟨⟨[[.vInt 0, .vInt 0]], [⟨"int64", {}⟩]⟩, [["a", "b"]],
    ⟨[[.vInt 1, .vInt 2], [.vInt 5]], ["int64", "int64"]⟩, none⟩

/-- C3 counterexample: the data-type check passes, yet the merged body
contains a row with fewer entries than the base's data-column count — the
short addition row is carried unchanged, not padded. -/
theorem claim3_counterexample :
    concatTables c3b c3a = .ok c3merged ∧
      c3b.data.type.length = 2 ∧
      (c3merged.data.data.all (fun row => row.length == 2)) = false := by
  exact ⟨rfl, rfl, rfl⟩

/-- Base frame with one `int64` column. -/
def c3wBase : Quiver :=
  ⟨⟨[[.vInt 0]], [⟨"int64", {}⟩]⟩, [["a"]], ⟨[[.vInt 1]], ["int64"]⟩, none⟩

/-- Addition frame whose row is longer than the base's column count. -/
def c3wAdd : Quiver :=
  ⟨⟨[[.vInt 0]], [⟨"int64", {}⟩]⟩, [["a"]], ⟨[[.vInt 9, .vInt 8]], ["int64"]⟩, none⟩

/-- The truncated merge of `c3wBase` and `c3wAdd`. -/
def c3wMerged : Quiver :=
  ⟨⟨[[.vInt 0, .vInt 0]], [⟨"int64", {}⟩]⟩, [["a"]],
    ⟨[[.vInt 1], [.vInt 9]], ["int64"]⟩, none⟩

/-- C3 witness: the amended theorem at concrete frames (the long addition
row is truncated to the base's single column). -/
theorem claim3_witness : concatTables c3wBase c3wAdd = .ok c3wMerged := by
  have h := claim3_concat_data_truncates c3wBase c3wAdd rfl rfl rfl rfl
    ⟨[[.vInt 0, .vInt 0]], [⟨"int64", {}⟩]⟩ rfl rfl
  rw [h]
  rfl

/-! ## Claim C9: the value comparator -/

/-- `compareAny` on two ints follows the natural order. -/
theorem compareAny_int (x y : Int) :
    compareAny (.vInt x) (.vInt y) = if x < y then -1 else if y < x then 1 else 0 := by
  simp only [compareAny, jsLt, toNumber]
  simp [decide_eq_true_eq]

/-- `compareAny` on two strings follows code-point order. -/
theorem compareAny_str (a b : String) :
    compareAny (.vStr a) (.vStr b) = if a < b then -1 else if b < a then 1 else 0 := by
  simp only [compareAny, jsLt]
  simp [decide_eq_true_eq]

/-- C9: `compareValues` always lands in {-1, 0, 1}; on every tag other than
"unicode" it follows the operands' natural order (ints and strings alike);
on "unicode" strings equal up to case compare equal — in particular
`compare("Apple","apple","unicode") = 0`, `compare(1,2,"int64") < 0` and
`compare(2,1,"int64") > 0`. -/
theorem claim9_compare_values :
    (∀ a b t, compareValues a b t = -1 ∨ compareValues a b t = 0 ∨
      compareValues a b t = 1) ∧
    (∀ t, t ≠ "unicode" → ∀ x y : Int,
      (compareValues (.vInt x) (.vInt y) t = -1 ↔ x < y) ∧
      (compareValues (.vInt x) (.vInt y) t = 1 ↔ y < x) ∧
      (compareValues (.vInt x) (.vInt y) t = 0 ↔ x = y)) ∧
    (∀ t, t ≠ "unicode" → ∀ a b : String,
      (compareValues (.vStr a) (.vStr b) t = -1 ↔ a < b) ∧
      (compareValues (.vStr a) (.vStr b) t = 1 ↔ b < a) ∧
      (compareValues (.vStr a) (.vStr b) t = 0 ↔ a = b)) ∧
    (∀ a b : String, lowerString a = lowerString b →
      compareValues (.vStr a) (.vStr b) "unicode" = 0) ∧
    compareValues (.vStr "Apple") (.vStr "apple") "unicode" = 0 ∧
    compareValues (.vInt 1) (.vInt 2) "int64" < 0 ∧
    compareValues (.vInt 2) (.vInt 1) "int64" > 0 := by
  refine ⟨?_, ?_, ?_, ?_, ?_, ?_, ?_⟩
  · intro a b t
    unfold compareValues compareStrings collatorCompare compareAny
    split_ifs <;> simp
  · intro t ht x y
    have htb : (t == "unicode") = false := beq_eq_false_iff_ne.mpr ht
    unfold compareValues
    rw [htb]
    simp only [Bool.false_eq_true, if_false]
    rw [compareAny_int]
    refine ⟨?_, ?_, ?_⟩ <;> (split_ifs with h1 h2 <;> simp <;> omega)
  · intro t ht a b
    have htb : (t == "unicode") = false := beq_eq_false_iff_ne.mpr ht
    unfold compareValues
    rw [htb]
    simp only [Bool.false_eq_true, if_false]
    rw [compareAny_str]
    refine ⟨?_, ?_, ?_⟩
    · split_ifs with h1 h2
      · exact iff_of_true rfl h1
      · exact iff_of_false not_false h1
      · exact iff_of_false not_false h1
    · split_ifs with h1 h2
      · exact iff_of_false not_false (lt_asymm h1)
      · exact iff_of_true rfl h2
      · exact iff_of_false (by decide) h2
    · split_ifs with h1 h2
      · exact iff_of_false not_false (ne_of_lt h1)
      · exact iff_of_false (by decide) (Ne.symm (ne_of_lt h2))
      · exact iff_of_true rfl (le_antisymm (not_lt.mp h2) (not_lt.mp h1))
  · intro a b h
    simp only [compareValues, compareStrings, valueToString, collatorCompare, h]
    simp
  · have h : lowerString "Apple" = lowerString "apple" := by decide
    simp only [compareValues, compareStrings, valueToString, collatorCompare, h]
    simp
  · decide
  · decide

/-- C9 witness: the amended-shape hypotheses discharged at a concrete tag
and operands. -/
theorem claim9_witness : compareValues (.vInt 3) (.vInt 7) "int64" = -1 :=
  ((claim9_compare_values.2.1 "int64" (by decide) 3 7).1).mpr (by decide)

/-! ## Claim C1: range-index extension -/

/-- The arithmetic progression of `n` values starting at `stop`, advancing
by `step` (the values `concatRangeIndex` appends). -/
def rangeFrom (stop step : Int) (n : Nat) : List Value :=
  (List.range n).map (fun (i : Nat) => Value.vInt (stop + (i : Int) * step))

theorem rangeFrom_succ (s step : Int) (n : Nat) :
    rangeFrom s step (n + 1) = Value.vInt s :: rangeFrom (s + step) step n := by
  unfold rangeFrom
  rw [List.range_succ_eq_map, List.map_cons, List.map_map]
  congr 1
  · simp
  · congr 1
    funext i
    simp only [Function.comp_apply]
    congr 1
    push_cast
    ring

/-- Running the `concatRangeIndex` fold from a level whose recorded stop is
the carried accumulator appends the arithmetic progression and advances the
recorded stop by one step per appended value. -/
theorem rangeStep_foldl (step : Int) (second : List Value) :
    ∀ (d : List Value) (t : IndexType),
      second.foldl (rangeStep step) ({ data := d, type := t }, t.meta.stop) =
        ({ data := d ++ rangeFrom t.meta.stop step second.length,
           type := { t with meta := { t.meta with
             stop := t.meta.stop + (second.length : Int) * step } } },
         t.meta.stop + (second.length : Int) * step) := by
  induction second with
  | nil =>
    intro d t
    simp [rangeFrom]
  | cons v rest ih =>
    intro d t
    rw [List.foldl_cons]
    have hstep : rangeStep step ({ data := d, type := t }, t.meta.stop) v =
        ({ data := d ++ [Value.vInt t.meta.stop],
           type := { t with meta := { t.meta with stop := t.meta.stop + step } } },
         t.meta.stop + step) := rfl
    rw [hstep]
    refine (ih (d ++ [Value.vInt t.meta.stop])
      { t with meta := { t.meta with stop := t.meta.stop + step } }).trans ?_
    have hlist : (d ++ [Value.vInt t.meta.stop]) ++
        rangeFrom (t.meta.stop + step) step rest.length =
        d ++ rangeFrom t.meta.stop step (rest.length + 1) := by
      rw [rangeFrom_succ, List.append_assoc]
      rfl
    have harith : (t.meta.stop + step) + (rest.length : Int) * step =
        t.meta.stop + ((rest.length + 1 : Nat) : Int) * step := by
      push_cast
      ring
    rw [Prod.mk.injEq]
    constructor
    · rw [IndexData.mk.injEq]
      constructor
      · exact hlist
      · rw [IndexType.mk.injEq]
        constructor
        · rfl
        · rw [Meta.mk.injEq]
          refine ⟨rfl, ?_, rfl, rfl⟩
          exact harith
    · exact harith

/-- `concatRangeIndex` in closed form: the base level's data followed by
one range value per addition entry, with the recorded stop advanced by one
step per entry. -/
theorem concatRangeIndex_spec (firstIndex secondIndex : List Value) (t : IndexType) :
    concatRangeIndex firstIndex secondIndex t =
      { data := firstIndex ++ rangeFrom t.meta.stop t.meta.step secondIndex.length,
        type := { t with meta := { t.meta with
          stop := t.meta.stop + (secondIndex.length : Int) * t.meta.step } } } := by
  unfold concatRangeIndex
  rw [rangeStep_foldl t.meta.step secondIndex firstIndex t]

/-- `concatIndices` on two single-level indices with matching type names and
a nonempty base level merges that one level with `concatIndex`. -/
theorem concatIndices_single (d1 d2 : List Value) (t1 t2 : IndexType)
    (hname : t1.name = t2.name) (hne : d1 ≠ []) :
    concatIndices ⟨[d1], [t1]⟩ ⟨[d2], [t2]⟩ =
      .ok ⟨[(concatIndex d1 d2 t1).data], [(concatIndex d1 d2 t1).type]⟩ := by
  have hred : concatIndices ⟨[d1], [t1]⟩ ⟨[d2], [t2]⟩ =
      (if (d1.length == 0) = true then Except.ok (⟨[d2], [t2]⟩ : Index)
       else if (!sameIndexTypes [t1] [t2]) = true then Except.error QErr.indexTypeMismatch
       else Except.ok ⟨[(concatIndex d1 d2 t1).data], [(concatIndex d1 d2 t1).type]⟩) := rfl
  have hlen : (d1.length == 0) = false := by
    simp only [beq_eq_false_iff_ne, ne_eq, List.length_eq_zero]
    exact hne
  have hsame : sameIndexTypes [t1] [t2] = true := by
    unfold sameIndexTypes
    simp [hname]
  rw [hred, hlen, hsame]
  rfl

/-- C1: for non-empty, non-styled frames with a single synthetic range index
level each (matching type names) and passing data-type check, `concatTables`
extends the range arithmetically: the merged level's data is the base
level's data followed by one value per addition row starting at the base's
recorded stop and advancing by its step, and the merged recorded stop is the
old stop plus (addition rows) times step. -/
theorem claim1_concat_range_extends (df1 df2 : Quiver) (d1 d2 : List Value)
    (m1 : Meta) (t2 : IndexType)
    (h1 : df1.styler = none) (h2 : df2.styler = none)
    (hi1 : df1.index = ⟨[d1], [⟨IndexTypes.RangeIndex, m1⟩]⟩)
    (hi2 : df2.index = ⟨[d2], [t2]⟩)
    (ht2 : t2.name = IndexTypes.RangeIndex)
    (hne : d1 ≠ []) (hd2 : df2.data.data ≠ [])
    (hrows : d2.length = df2.data.data.length)
    (hdt : sameDataColumnTypes df1.data.type df2.data.type = true) :
    ∃ q, concatTables df1 df2 = .ok q ∧
      q.index.data = [d1 ++ rangeFrom m1.stop m1.step df2.data.data.length] ∧
      q.index.type = [⟨IndexTypes.RangeIndex,
        { m1 with stop := m1.stop + (df2.data.data.length : Int) * m1.step }⟩] := by
  have he1 : isEmptyDf df1 = .ok false :=
    isEmptyDf_of_first_level_ne df1 d1 (by rw [hi1]; rfl) hne
  have he2 : isEmptyDf df2 = .ok false := isEmptyDf_of_data_ne df2 hd2
  have hC : concatIndex d1 d2 ⟨IndexTypes.RangeIndex, m1⟩ =
      { data := d1 ++ rangeFrom m1.stop m1.step d2.length,
        type := ⟨IndexTypes.RangeIndex,
          { m1 with stop := m1.stop + (d2.length : Int) * m1.step }⟩ } := by
    unfold concatIndex
    rw [if_pos (by simp)]
    rw [concatRangeIndex_spec]
  have hci : concatIndices df1.index df2.index =
      .ok ⟨[d1 ++ rangeFrom m1.stop m1.step d2.length],
           [⟨IndexTypes.RangeIndex,
             { m1 with stop := m1.stop + (d2.length : Int) * m1.step }⟩]⟩ := by
    rw [hi1, hi2]
    rw [concatIndices_single d1 d2 ⟨IndexTypes.RangeIndex, m1⟩ t2 ht2.symm hne, hC]
  have hfinal : concatTables df1 df2 = .ok
      { index := ⟨[d1 ++ rangeFrom m1.stop m1.step d2.length],
                  [⟨IndexTypes.RangeIndex,
                    { m1 with stop := m1.stop + (d2.length : Int) * m1.step }⟩]⟩,
        columns := df1.columns,
        data := { data := df1.data.data ++
                    df2.data.data.map (fun row => row.take df1.data.type.length),
                  type := df1.data.type },
        styler := none } := by
    rw [concatTables_data_stage df1 df2 h1 h2 he1 he2 _ hci, concatData_eq, hdt]
    rfl
  refine ⟨_, hfinal, ?_, ?_⟩
  · rw [← hrows]
  · rw [← hrows]

/-- Base frame: synthetic range index start 0, step 1, stop 3. -/
def c1base : Quiver :=
  ⟨⟨[[.vInt 0, .vInt 1, .vInt 2]], [⟨IndexTypes.RangeIndex, ⟨0, 3, 1, 0⟩⟩]⟩, [["c"]],
    ⟨[[.vInt 10], [.vInt 11], [.vInt 12]], ["int64"]⟩, none⟩

/-- Addition frame: synthetic range index start 0, step 1, stop 2. -/
def c1add : Quiver :=
  ⟨⟨[[.vInt 0, .vInt 1]], [⟨IndexTypes.RangeIndex, ⟨0, 2, 1, 0⟩⟩]⟩, [["c"]],
    ⟨[[.vInt 20], [.vInt 21]], ["int64"]⟩, none⟩

/-- C1 witness: merging ranges stop 3 and stop 2 yields index data
[0,1,2,3,4] and recorded stop 5, by the main theorem. -/
theorem claim1_witness :
    ∃ q, concatTables c1base c1add = .ok q ∧
      q.index.data = [[.vInt 0, .vInt 1, .vInt 2, .vInt 3, .vInt 4]] ∧
      q.index.type = [⟨IndexTypes.RangeIndex, ⟨0, 5, 1, 0⟩⟩] := by
  obtain ⟨q, hq, hd, ht⟩ := claim1_concat_range_extends c1base c1add
    [.vInt 0, .vInt 1, .vInt 2] [.vInt 0, .vInt 1] ⟨0, 3, 1, 0⟩
    ⟨IndexTypes.RangeIndex, ⟨0, 2, 1, 0⟩⟩ rfl rfl rfl rfl rfl (by decide) (by decide) rfl rfl
  refine ⟨q, hq, ?_, ?_⟩
  · rw [hd]
    rfl
  · rw [ht]
    rfl

/-! ## Claim C7: the dimensions computation -/

/-- C7 (amended): when `dimensions` succeeds, the totals split as
rows = headerRows + dataRows and columns = headerColumns + dataColumns, with
headerColumns the number of index levels, headerRows the number of
column-label levels (1 when there are none) and dataRows the body row count;
and it raises the dimension-mismatch error exactly when the body has a
nonzero row count disagreeing with the index-derived count, or a nonzero
first-row column count disagreeing with the columns-derived count — a
non-empty body whose rows are empty lists escapes the column check. -/
theorem claim7_dimensions (q : Quiver) :
    (∀ d, q.dimensions = .ok d →
      d.rows = d.headerRows + d.dataRows ∧
      d.columns = d.headerColumns + d.dataColumns ∧
      d.headerColumns = q.index.data.length ∧
      d.headerRows = (if q.columns.length ≠ 0 then q.columns.length else 1) ∧
      d.dataRows = q.data.data.length) ∧
    (q.dimensions = .error QErr.dimensionMismatch ↔
      ((q.data.data.length ≠ 0 ∧
         q.data.data.length ≠
           (if q.index.data.length ≠ 0 then (q.index.data.getD 0 []).length else 0)) ∨
       ((if q.data.data.length ≠ 0 then (q.data.data.getD 0 []).length
          else if q.columns.length ≠ 0 then (q.columns.getD 0 []).length else 0) ≠ 0 ∧
        (if q.data.data.length ≠ 0 then (q.data.data.getD 0 []).length
          else if q.columns.length ≠ 0 then (q.columns.getD 0 []).length else 0) ≠
          (if q.columns.length ≠ 0 then (q.columns.getD 0 []).length else 0)))) := by
  have hred : q.dimensions =
      (if ((q.data.data.length ≠ 0 ∧
            q.data.data.length ≠
              (if q.index.data.length ≠ 0 then (q.index.data.getD 0 []).length else 0)) ∨
          ((if q.data.data.length ≠ 0 then (q.data.data.getD 0 []).length
             else if q.columns.length ≠ 0 then (q.columns.getD 0 []).length else 0) ≠ 0 ∧
           (if q.data.data.length ≠ 0 then (q.data.data.getD 0 []).length
             else if q.columns.length ≠ 0 then (q.columns.getD 0 []).length else 0) ≠
             (if q.columns.length ≠ 0 then (q.columns.getD 0 []).length else 0))) then
        .error QErr.dimensionMismatch
      else
        .ok { headerRows := if q.columns.length ≠ 0 then q.columns.length else 1,
              headerColumns := q.index.data.length,
              dataRows := q.data.data.length,
              dataColumns := if q.data.data.length ≠ 0 then (q.data.data.getD 0 []).length
                else if q.columns.length ≠ 0 then (q.columns.getD 0 []).length else 0,
              rows := (if q.columns.length ≠ 0 then q.columns.length else 1) +
                q.data.data.length,
              columns := q.index.data.length +
                (if q.data.data.length ≠ 0 then (q.data.data.getD 0 []).length
                  else if q.columns.length ≠ 0 then (q.columns.getD 0 []).length else 0) }) :=
    rfl
  rw [hred]
  by_cases hg : ((q.data.data.length ≠ 0 ∧
         q.data.data.length ≠
           (if q.index.data.length ≠ 0 then (q.index.data.getD 0 []).length else 0)) ∨
       ((if q.data.data.length ≠ 0 then (q.data.data.getD 0 []).length
          else if q.columns.length ≠ 0 then (q.columns.getD 0 []).length else 0) ≠ 0 ∧
        (if q.data.data.length ≠ 0 then (q.data.data.getD 0 []).length
          else if q.columns.length ≠ 0 then (q.columns.getD 0 []).length else 0) ≠
          (if q.columns.length ≠ 0 then (q.columns.getD 0 []).length else 0)))
  · rw [if_pos hg]
    constructor
    · intro d hd
      exact absurd hd (by simp)
    · exact ⟨fun _ => hg, fun _ => rfl⟩
  · rw [if_neg hg]
    constructor
    · intro d hd
      injection hd with hd2
      rw [← hd2]
      exact ⟨rfl, rfl, rfl, rfl, rfl⟩
    · exact iff_of_false (by simp) hg

/-- A frame whose non-empty body consists of zero-length rows while the
column labels promise three data columns. -/
def qC7c : Quiver :=
  ⟨⟨[[.vInt 0, .vInt 1]], [⟨"int64", {}⟩]⟩, [["x", "y", "z"]], ⟨[[], []], []⟩, none⟩

/-- C7 counterexample: the body is non-empty (two rows) and its shape
(2 x 0) disagrees with the columns-derived column count 3, yet `dimensions`
returns successfully — the `dataColumns = 0` guard skips the column check. -/
theorem claim7_counterexample :
    qC7c.dimensions = .ok ⟨1, 1, 2, 0, 3, 1⟩ ∧
      qC7c.data.data.length = 2 ∧
      (qC7c.data.data.all (fun row => row.length == 0)) = true ∧
      (qC7c.columns.getD 0 []).length = 3 :=
  ⟨rfl, rfl, rfl, rfl⟩

/-- A well-shaped 2 x 2 frame. -/
def qC7w : Quiver :=
  ⟨⟨[[.vInt 0, .vInt 1]], [⟨"int64", {}⟩]⟩, [["x", "y"]],
    ⟨[[.vInt 1, .vInt 2], [.vInt 3, .vInt 4]], ["int64", "int64"]⟩, none⟩

/-- C7 witness: the accounting identities at a concrete frame, by the
amended theorem. -/
theorem claim7_witness :
    ∃ d, qC7w.dimensions = .ok d ∧ d.rows = d.headerRows + d.dataRows ∧
      d.columns = d.headerColumns + d.dataColumns := by
  have h := (claim7_dimensions qC7w).1 ⟨1, 1, 2, 2, 3, 3⟩ rfl
  exact ⟨⟨1, 1, 2, 2, 3, 3⟩, rfl, h.1, h.2.1⟩

/-! ## Claims C5 and C6: cell addressing -/

/-- Projecting the cell type out of a successful lookup. -/
theorem ok_type_of (x cell : TableCell)
    (h : (Except.ok x : Except QErr TableCell) = .ok cell) :
    cell.type = x.type := by
  injection h with h2
  rw [h2]

/-- The claim's region classification of a grid coordinate, in its stated
priority order (stated from the claim, to be compared with `getCell`). -/
def claimRegionType (dims : TableDimensions) (r c : Int) : String :=
  if r < (dims.headerRows : Int) ∧ c < (dims.headerColumns : Int) then "blank"
  else if (dims.headerRows : Int) ≤ r ∧ c < (dims.headerColumns : Int) then "index"
  else if r < (dims.headerRows : Int) ∧ (dims.headerColumns : Int) ≤ c then "columns"
  else "data"

/-- C5: whenever `getCell` returns a cell at an in-range coordinate, the
cell's type is the claim's region classification (blank/index/columns/data
in priority order); in particular a returned cell at
(headerRows, headerColumns) always has type "data". -/
theorem claim5_cell_classification (q : Quiver) (d : TableDimensions) (r c : Int)
    (cell : TableCell)
    (hdims : q.dimensions = .ok d)
    (hr0 : 0 ≤ r) (hr : r < (d.rows : Int)) (hc0 : 0 ≤ c) (hc : c < (d.columns : Int))
    (hcell : q.getCell r c = .ok cell) :
    cell.type = claimRegionType d r c ∧
      ((r = (d.headerRows : Int) ∧ c = (d.headerColumns : Int)) →
        cell.type = "data") := by
  have hdof : dimensionsOf q.index q.columns q.data = .ok d := hdims
  unfold Quiver.getCell getCellAux at hcell
  rw [hdof] at hcell
  have hcell2 : getCellWithDims q.index q.columns q.data (q.styler.map Styler.uuid)
      ((q.styler.bind Styler.displayValues).map
        (fun dv => fun r c => Except.map TableCell.content (dv.getCell r c)))
      d r c = .ok cell := hcell
  have hrow : ¬(r < 0 ∨ (d.rows : Int) ≤ r) := by omega
  have hcol : ¬(c < 0 ∨ (d.columns : Int) ≤ c) := by omega
  unfold getCellWithDims at hcell2
  rw [if_neg hrow, if_neg hcol] at hcell2
  have hmain : cell.type = claimRegionType d r c := by
    by_cases hb : r < (d.headerRows : Int) ∧ c < (d.headerColumns : Int)
    · rw [if_pos hb] at hcell2
      rw [ok_type_of _ cell hcell2]
      unfold claimRegionType
      rw [if_pos hb]
    · rw [if_neg hb] at hcell2
      by_cases hi : (d.headerRows : Int) ≤ r ∧ c < (d.headerColumns : Int)
      · rw [if_pos hi] at hcell2
        cases hg2 : q.index.type.get? c.toNat with
        | none =>
          rw [hg2] at hcell2
          exact absurd hcell2 (by simp)
        | some it =>
          rw [hg2] at hcell2
          rw [ok_type_of _ cell hcell2]
          unfold claimRegionType
          rw [if_neg hb, if_pos hi]
      · rw [if_neg hi] at hcell2
        by_cases hcols : r < (d.headerRows : Int) ∧ (d.headerColumns : Int) ≤ c
        · rw [if_pos hcols] at hcell2
          rw [ok_type_of _ cell hcell2]
          unfold claimRegionType
          rw [if_neg hb, if_neg hi, if_pos hcols]
        · rw [if_neg hcols] at hcell2
          have hregion : claimRegionType d r c = "data" := by
            unfold claimRegionType
            rw [if_neg hb, if_neg hi, if_neg hcols]
          rw [hregion]
          cases hopt : q.styler.bind Styler.displayValues with
          | none =>
            rw [hopt] at hcell2
            simp only [Option.map_none'] at hcell2
            rw [ok_type_of _ cell hcell2]
          | some dv =>
            rw [hopt] at hcell2
            simp only [Option.map_some'] at hcell2
            cases hres : Except.map TableCell.content (dv.getCell r c) with
            | error e =>
              rw [hres] at hcell2
              exact absurd hcell2 (by simp)
            | ok s =>
              rw [hres] at hcell2
              rw [ok_type_of _ cell hcell2]
  refine ⟨hmain, ?_⟩
  intro he
  rw [hmain]
  unfold claimRegionType
  split_ifs <;> first | rfl | omega

/-- C6 (amended): for a frame whose styling carries no display values,
`getCell` fails with an index-out-of-range error exactly when the coordinate
is out of the grid (row < 0, row >= rows, col < 0, or col >= columns); when
additionally every header column has an index-type entry (the
data.length == type.length invariant — an in-range index cell on a frame
violating it throws the TypeError of reading `.name` of `undefined`
instead), every in-range coordinate yields a cell. (The embedding is purely
functional, so the failed query leaves the frame unchanged by
construction.) -/
theorem claim6_out_of_range_iff (q : Quiver) (d : TableDimensions)
    (hdims : q.dimensions = .ok d)
    (hdv : q.styler.bind Styler.displayValues = none) (r c : Int) :
    (d.headerColumns ≤ q.index.type.length →
      (0 ≤ r ∧ r < (d.rows : Int) ∧ 0 ≤ c ∧ c < (d.columns : Int)) →
      ∃ cell, q.getCell r c = .ok cell) ∧
    ((q.getCell r c = .error QErr.rowOutOfRange ∨
      q.getCell r c = .error QErr.colOutOfRange) ↔
      (r < 0 ∨ (d.rows : Int) ≤ r ∨ c < 0 ∨ (d.columns : Int) ≤ c)) := by
  have hdof : dimensionsOf q.index q.columns q.data = .ok d := hdims
  have hg : q.getCell r c =
      getCellWithDims q.index q.columns q.data (q.styler.map Styler.uuid) none d r c := by
    unfold Quiver.getCell getCellAux
    rw [hdv, hdof]
    rfl
  rw [hg]
  unfold getCellWithDims
  by_cases h1 : r < 0 ∨ (d.rows : Int) ≤ r
  · rw [if_pos h1]
    refine ⟨?_, ?_, ?_⟩
    · intro _ hin
      exact absurd h1 (by omega)
    · intro _
      omega
    · intro _
      left
      rfl
  · rw [if_neg h1]
    by_cases h2 : c < 0 ∨ (d.columns : Int) ≤ c
    · rw [if_pos h2]
      refine ⟨?_, ?_, ?_⟩
      · intro _ hin
        exact absurd h2 (by omega)
      · intro _
        omega
      · intro _
        right
        rfl
    · rw [if_neg h2]
      refine ⟨?_, ?_, ?_⟩
      · intro hty _
        by_cases hb : r < (d.headerRows : Int) ∧ c < (d.headerColumns : Int)
        · rw [if_pos hb]
          exact ⟨_, rfl⟩
        · rw [if_neg hb]
          by_cases hi : (d.headerRows : Int) ≤ r ∧ c < (d.headerColumns : Int)
          · rw [if_pos hi]
            cases hg2 : q.index.type.get? c.toNat with
            | none =>
              exfalso
              have hlen := List.get?_eq_none.mp hg2
              omega
            | some it =>
              exact ⟨_, rfl⟩
          · rw [if_neg hi]
            by_cases hcols : r < (d.headerRows : Int) ∧ (d.headerColumns : Int) ≤ c
            · rw [if_pos hcols]
              exact ⟨_, rfl⟩
            · rw [if_neg hcols]
              exact ⟨_, rfl⟩
      · intro herr
        exfalso
        rcases herr with h | h
        · split_ifs at h
          cases hg2 : q.index.type.get? c.toNat with
          | none =>
            rw [hg2] at h
            simp at h
          | some it =>
            rw [hg2] at h
            simp at h
        · split_ifs at h
          cases hg2 : q.index.type.get? c.toNat with
          | none =>
            rw [hg2] at h
            simp at h
          | some it =>
            rw [hg2] at h
            simp at h
      · intro hout
        exfalso
        omega

/-- A display-value overlay frame with zero body rows (grid 1 x 2). -/
def c6plain : PlainFrame :=
  ⟨⟨[[]], [⟨IndexTypes.RangeIndex, ⟨0, 0, 1, 0⟩⟩]⟩, [["c"]], ⟨[], []⟩⟩

/-- A styled 2 x 2 frame whose display-value overlay is the smaller
`c6plain`. -/
def c6frame : Quiver :=
  ⟨⟨[[.vInt 0]], [⟨IndexTypes.RangeIndex, ⟨0, 1, 1, 0⟩⟩]⟩, [["c"]],
    ⟨[[.vInt 7]], ["int64"]⟩, some ⟨"u", none, none, some c6plain⟩⟩

/-- C6 counterexample: the frame's own dimensions are 2 x 2, so (1, 1) is in
range, yet `getCell 1 1` raises `IndexOutOfRange` — the data cell forwards
the same grid coordinates to the smaller display-value overlay. -/
theorem claim6_counterexample :
    c6frame.dimensions = .ok ⟨1, 1, 1, 1, 2, 2⟩ ∧
      c6frame.getCell 1 1 = .error QErr.rowOutOfRange :=
  ⟨rfl, rfl⟩

/-- A 2 x 2 frame without styling. -/
def c6w : Quiver :=
  ⟨⟨[[.vInt 0]], [⟨IndexTypes.RangeIndex, ⟨0, 1, 1, 0⟩⟩]⟩, [["c"]],
    ⟨[[.vStr "x"]], ["unicode"]⟩, none⟩

/-- C6 witness: the amended theorem at a concrete frame — in-range (0,0)
yields a cell, and row -1 fails with an out-of-range error. -/
theorem claim6_witness :
    (∃ cell, c6w.getCell 0 0 = .ok cell) ∧
      (c6w.getCell (-1) 0 = .error QErr.rowOutOfRange ∨
        c6w.getCell (-1) 0 = .error QErr.colOutOfRange) := by
  refine ⟨?_, ?_⟩
  · exact (claim6_out_of_range_iff c6w ⟨1, 1, 1, 1, 2, 2⟩ rfl rfl 0 0).1 (by decide) (by decide)
  · exact (claim6_out_of_range_iff c6w ⟨1, 1, 1, 1, 2, 2⟩ rfl rfl (-1) 0).2.mpr (by decide)

/-- A 2 x 2 frame without styling (C5's concrete frame). -/
def c5w : Quiver :=
  ⟨⟨[[.vInt 0]], [⟨IndexTypes.RangeIndex, ⟨0, 1, 1, 0⟩⟩]⟩, [["c"]],
    ⟨[[.vStr "x"]], ["unicode"]⟩, none⟩

/-- The cell `c5w.getCell 1 1` returns. -/
def c5cell : TableCell := ⟨"data", none, "data row0 col0", "x"⟩

/-- C5 witness: the top-left body cell (headerRows, headerColumns) = (1, 1)
of a concrete frame classifies as "data", by the main theorem. -/
theorem claim5_witness :
    ∃ cell, c5w.getCell 1 1 = .ok cell ∧ cell.type = "data" := by
  refine ⟨c5cell, rfl, ?_⟩
  have h := claim5_cell_classification c5w ⟨1, 1, 1, 1, 2, 2⟩ 1 1 c5cell rfl
    (by decide) (by decide) (by decide) (by decide) rfl
  rw [h.1]
  rfl

end Streamlit
